import Mathlib

/-!
Verification of the redirect-chain resolver and server-fingerprinting engine
of `src/main.py` (FastAPI app).

The Python code is shallowly embedded:
* response headers are association lists `List (String × String)`;
* the process-wide `ip_cache` dict is an association list threaded through
  the functions that read or write it;
* DNS (`socket.gethostbyname`) is an oracle `dns : String → Option String`
  (`none` models `socket.gaierror`, the only failure the code can see here);
* the HTTP client is an oracle `net : Nat → NetOutcome`, giving for the k-th
  GET issued by one walk either a response (status + headers) or a raised
  exception.  With `follow_redirects=False`, `str(response.url)` is the
  requested URL, so the model equates them.  Informational 1xx responses are
  consumed by the transport stack and never reach this code, so
  `raise_for_status` is modelled as raising exactly on `status ≥ 400`
  (on the reachable statuses — 2xx, 4xx, 5xx in the non-redirect branch —
  this agrees with httpx for every version);
* strings are treated as ASCII (Python's `str.lower`/`str.strip` Unicode
  behaviour beyond ASCII is irrelevant to the header values modelled here).
-/

namespace UrlJourney

/-! ### Python string primitives -/

/-- Python `str.lower()` (ASCII). -/
def pyLower (s : String) : String := String.mk (s.toList.map Char.toLower)

/-- Python `str.capitalize()`: first character uppercased, the REST lowercased. -/
def pyCapitalize (s : String) : String :=
  match s.toList with
  | [] => ""
  | c :: rest => String.mk (c.toUpper :: rest.map Char.toLower)

/-- Does `p` start the list `l`? -/
def chStarts : List Char → List Char → Bool
  | [], _ => true
  | _ :: _, [] => false
  | a :: as, b :: bs => a = b && chStarts as bs

/-- Does `p` occur inside `l`? -/
def chHasSub (p : List Char) : List Char → Bool
  | [] => chStarts p []
  | b :: bs => chStarts p (b :: bs) || chHasSub p bs

/-- Python `needle in hay` for strings. -/
def strIn (needle hay : String) : Bool := chHasSub needle.toList hay.toList

/-- The ASCII whitespace characters Python `str.strip()` removes. -/
def pyIsSpace (c : Char) : Bool :=
  c = ' ' || c = '\t' || c = '\n' || c = '\r' || c = '\x0b' || c = '\x0c'

/-- Python `str.strip()` (ASCII whitespace). -/
def pyStrip (s : String) : String :=
  String.mk (((s.toList.dropWhile pyIsSpace).reverse.dropWhile pyIsSpace).reverse)

/-- Split a character list at every occurrence of `ch` (like
`str.split(ch)`: no separators kept, empty pieces preserved). -/
def splitOnChar (ch : Char) : List Char → List (List Char)
  | [] => [[]]
  | c :: cs =>
    if c = ch then [] :: splitOnChar ch cs
    else
      match splitOnChar ch cs with
      | [] => [[c]]
      | l :: ls => (c :: l) :: ls

/-- Python `str.splitlines()`, modelling `\n` line terminators only:
no empty trailing element when the string ends with a newline. -/
def splitlines (s : String) : List String :=
  if s.toList = [] then []
  else
    let parts := (splitOnChar '\n' s.toList).map String.mk
    if s.toList.getLast? = some '\n' then parts.dropLast else parts

/-! ### Python dict primitives (insertion-ordered association lists) -/

abbrev Cache := List (String × String)

/-- Python `d[k] = v`: overwrite in place if the key exists, else append. -/
def dictInsert (d : List (String × String)) (k v : String) : List (String × String) :=
  if d.any (fun p => p.1 = k) then
    d.map (fun p => if p.1 = k then (k, v) else p)
  else d ++ [(k, v)]

/-- Python `d.get(k)` as an `Option`. -/
def dictGet (d : List (String × String)) (k : String) : Option String :=
  (d.find? (fun p => p.1 = k)).map (fun p => p.2)

/-- Python `d.get(k, default)`. -/
def dictGetD (d : List (String × String)) (k default : String) : String :=
  (dictGet d k).getD default

/-- Python `k in d`. -/
def dictContains (d : List (String × String)) (k : String) : Bool :=
  (dictGet d k).isSome

/-- The dict comprehension `{k.lower(): v for k, v in headers.items()}`:
later duplicates overwrite earlier ones, first-insertion position kept. -/
def lowerDict (headers : List (String × String)) : List (String × String) :=
  headers.foldl (fun d p => dictInsert d (pyLower p.1) p.2) []

/-- httpx `Headers.get`: case-insensitive lookup (first match). -/
def httpxHeaderGet (headers : List (String × String)) (k : String) : Option String :=
  (headers.find? (fun p => pyLower p.1 = k)).map (fun p => p.2)

/-! ### `urllib.parse` models -/

/-- Suffix of `l` after the first occurrence of `p`, if `p` occurs. -/
def chAfterSub (p : List Char) : List Char → Option (List Char)
  | [] => if chStarts p [] then some ([].drop p.length) else none
  | b :: bs =>
    if chStarts p (b :: bs) then some ((b :: bs).drop p.length)
    else chAfterSub p bs

/-- The netloc of a URL: the text between `://` (or a leading `//`) and the
next `/`, `?` or `#`; `none` when the URL has no authority component. -/
def netlocOf (url : String) : Option String :=
  let delim : Char → Bool := fun c => c = '/' || c = '?' || c = '#'
  match chAfterSub "://".toList url.toList with
  | some rest => some (String.mk (rest.takeWhile (fun c => !delim c)))
  | none =>
    if chStarts "//".toList url.toList then
      some (String.mk ((url.toList.drop 2).takeWhile (fun c => !delim c)))
    else none

/-- Models `urlparse(url).hostname`: netloc with userinfo and port stripped,
lowercased; `None` when absent or empty.  (Bracketed IPv6 hosts keep the
text between the brackets, as in CPython.) -/
def pyHostname (url : String) : Option String :=
  match netlocOf url with
  | none => none
  | some netloc =>
    let hostinfo := ((netloc.toList.reverse.takeWhile (fun c => c ≠ '@')).reverse)
    let host :=
      match hostinfo with
      | '[' :: rest => rest.takeWhile (fun c => c ≠ ']')
      | l => l.takeWhile (fun c => c ≠ ':')
    if host = [] then none else some (pyLower (String.mk host))

/-- Scheme-and-authority prefix of `base` (`scheme://netloc`), used to
resolve root-relative references. -/
def schemeHostOf (base : String) : String :=
  match chAfterSub "://".toList base.toList with
  | some rest =>
    let netloc := rest.takeWhile (fun c => !(c = '/' || c = '?' || c = '#'))
    String.mk (base.toList.take (base.length - rest.length) ++ netloc)
  | none => base

/-- `base` with query/fragment dropped and the last path segment removed. -/
def dirOf (base : String) : String :=
  match chAfterSub "://".toList base.toList with
  | some rest =>
    let path := rest.takeWhile (fun c => !(c = '?' || c = '#'))
    let pre := base.toList.take (base.length - rest.length)
    if path.any (fun c => c = '/') then
      String.mk (pre ++ (path.reverse.dropWhile (fun c => c ≠ '/')).reverse)
    else String.mk (pre ++ path ++ ['/'])
  | none => base

/-- Models `urllib.parse.urljoin(base, loc)` for the URL shapes the walker
produces: an absolute `loc` (containing `://`) replaces the base; a
protocol-relative or root-relative `loc` is resolved against the base's
authority; otherwise the base's last path segment is replaced. -/
def urljoin (base loc : String) : String :=
  if strIn "://" loc then loc
  else if chStarts "//".toList loc.toList then
    (String.mk (base.toList.takeWhile (fun c => c ≠ ':'))) ++ ":" ++ loc
  else if chStarts "/".toList loc.toList then schemeHostOf base ++ loc
  else dirOf base ++ loc

/-! ### IP Range Oracle (`resolve_ip_async`, `is_akamai_ip`) -/

/-- Result of `resolve_ip_async`: the IP (or `None`), the `ip_cache` after
the call, and whether a `socket.gethostbyname` lookup was performed
(observational instrumentation; the Python function's control flow is
otherwise mirrored exactly, including that only successes are cached). -/
def resolve_ip_async (dns : String → Option String) (hostname : Option String)
    (cache : Cache) : Option String × Cache × Bool :=
  match hostname with
  | none => (none, cache, false)
  | some h =>
    if h = "" then (none, cache, false)
    else
      match dictGet cache h with
      | some ip => (some ip, cache, false)
      | none =>
        match dns h with
        | some ip => (some ip, dictInsert cache h ip, true)
        | none => (none, cache, true)

/-- One dotted-quad octet as `ipaddress` parses it: 1–3 digits, no leading
zero, value ≤ 255. -/
def parseOctet (s : String) : Option Nat :=
  let cs := s.toList
  if cs = [] then none
  else if !cs.all Char.isDigit then none
  else if cs.length > 3 then none
  else if cs.length > 1 && cs.head? = some '0' then none
  else
    let n := cs.foldl (fun acc c => acc * 10 + (c.toNat - 48)) 0
    if n ≤ 255 then some n else none

/-- IPv4 dotted-quad parser, giving the 32-bit numeric address. -/
def parseIPv4 (s : String) : Option Nat :=
  match ((splitOnChar '.' s.toList).map (fun l => parseOctet (String.mk l))) with
  | [some a, some b, some c, some d] =>
    some (a * 16777216 + b * 65536 + c * 256 + d)
  | _ => none

/-- `AKAMAI_IP_RANGES = ["23.192.0.0/11", "104.64.0.0/10", "184.24.0.0/13"]`
as (base address, prefix length) pairs. -/
def akamaiRangeList : List (Nat × Nat) :=
  [(23 * 16777216 + 192 * 65536, 11), (104 * 16777216 + 64 * 65536, 10),
   (184 * 16777216 + 24 * 65536, 13)]

/-- CIDR membership: the top `p` bits agree. -/
def inNetwork (addr base p : Nat) : Bool :=
  addr / 2 ^ (32 - p) = base / 2 ^ (32 - p)

/-- `is_akamai_ip`: `False` on `None`/empty/malformed input (the `ValueError`
is caught) and on IPv6 addresses (version mismatch in `in` is `False`);
otherwise CIDR membership in the Akamai ranges. -/
def is_akamai_ip (ip : Option String) : Bool :=
  match ip with
  | none => false
  | some s =>
    if s = "" then false
    else
      match parseIPv4 s with
      | some addr => akamaiRangeList.any (fun r => inNetwork addr r.1 r.2)
      | none => false

/-! ### Server Fingerprint Classifier (`get_server_name_advanced`) -/

/-- The BMW/MINI override condition of step 1 of the classifier. -/
def bmwOverride (headers : List (String × String)) (url : String) : Bool :=
  match pyHostname url with
  | some h =>
    (strIn "bmw" (pyLower h) || strIn "mini" (pyLower h))
      && dictContains (lowerDict headers) "cache-control"
  | none => false

/-- `get_server_name_advanced(headers, url)`: returns the label and the
`ip_cache` after the call (the DNS resolution in step 3 may populate it). -/
def get_server_name_advanced (dns : String → Option String)
    (headers : List (String × String)) (url : String) (cache : Cache) :
    String × Cache :=
  let hdrs := lowerDict headers
  let hostname := pyHostname url
  if bmwOverride headers url then ("Apache (AEM)", cache)
  else
    let server_value := pyLower (dictGetD hdrs "server" "")
    if server_value ≠ "" then
      (if strIn "akamai" server_value || strIn "ghost" server_value then "Akamai"
       else if strIn "apache" server_value then "Apache (AEM)"
       else pyCapitalize server_value, cache)
    else
      let server_timing := dictGetD hdrs "server-timing" ""
      let has_akamai_cache := strIn "cdn-cache; desc=HIT" server_timing
        || strIn "cdn-cache; desc=MISS" server_timing
      let has_akamai_request_id := dictContains hdrs "x-akamai-request-id"
      let has_dispatcher := dictContains hdrs "x-dispatcher"
        || dictContains hdrs "x-aem-instance"
      let has_aem_paths := hdrs.any (fun p =>
        (p.1 = "link" || p.1 = "baqend-tags") && strIn "/etc.clientlibs" p.2)
      let r := resolve_ip_async dns hostname cache
      let is_akamai := is_akamai_ip r.1
      let cache' := r.2.1
      if has_akamai_cache || has_akamai_request_id
          || (server_timing ≠ "" && is_akamai) then
        (if has_aem_paths || has_dispatcher then "Apache (AEM)" else "Akamai", cache')
      else if has_dispatcher || has_aem_paths then ("Apache (AEM)", cache')
      else if is_akamai then ("Akamai", cache')
      else ("Unknown", cache')

/-! ### Redirect-Chain Walker (`check_url_status`) -/

/-- What one `client.get` can produce: a response, or one of the exception
classes distinguished by the handler (`httpx.TimeoutException`,
any other `httpx.RequestError`, or an uncategorized exception whose
`str(e)` is `msg`).  `httpx.HTTPStatusError` is only ever raised inside the
walk itself, by `raise_for_status`. -/
inductive NetOutcome where
  | resp (status : Nat) (headers : List (String × String))
  | timeout
  | reqError
  | otherExc (msg : String)
  deriving DecidableEq, Repr

/-- One entry of the redirect chain (`hop_info`). -/
structure Hop where
  url : String
  status : Nat
  serverName : String
  deriving DecidableEq, Repr

/-- The Python `"status"` field is heterogeneous: an int, `None` (success
with an empty chain), or the string `"Error"` (failure with an empty chain). -/
inductive StatusField where
  | num (n : Nat)
  | pyNone
  | errStr
  deriving DecidableEq, Repr

/-- The dict returned by `check_url_status`. -/
structure UrlResult where
  url : String
  status : StatusField
  comment : String
  serverName : String
  redirectChain : List Hop
  deriving DecidableEq, Repr

/-- The exceptions the walk's `except` block distinguishes. -/
inductive WalkErr where
  | timeout
  | httpStatus (status : Nat) (url : String)
  | reqErr
  | other (msg : String)
  deriving DecidableEq, Repr

/-- httpx `response.is_redirect`: any 3xx status. -/
def is_redirect (status : Nat) : Bool := 300 ≤ status && status ≤ 399

def MAX_REDIRECTS : Nat := 15

/-- The `for _ in range(MAX_REDIRECTS)` loop of `check_url_status`.
`k` is the index of the next request in `net`; `fuel` is the number of
remaining iterations.  Returns the accumulated chain, the `ip_cache`, and
either normal loop exit (`ok`, by `break` or exhaustion) or the raised
exception. -/
def walkLoop (dns : String → Option String) (net : Nat → NetOutcome) :
    Nat → Nat → String → List Hop → Cache → List Hop × Cache × Except WalkErr Unit
  | _, 0, _, chain, cache => (chain, cache, Except.ok ())
  | k, fuel + 1, currentUrl, chain, cache =>
    match net k with
    | NetOutcome.timeout => (chain, cache, Except.error WalkErr.timeout)
    | NetOutcome.reqError => (chain, cache, Except.error WalkErr.reqErr)
    | NetOutcome.otherExc msg => (chain, cache, Except.error (WalkErr.other msg))
    | NetOutcome.resp status hs =>
      let sc := get_server_name_advanced dns hs currentUrl cache
      let chain' := chain ++ [⟨currentUrl, status, sc.1⟩]
      if is_redirect status then
        match httpxHeaderGet hs "location" with
        | none =>
          (chain', sc.2, Except.error (WalkErr.other "Redirect missing location header"))
        | some target =>
          if target = "" then
            (chain', sc.2, Except.error (WalkErr.other "Redirect missing location header"))
          else
            let nextUrl := urljoin currentUrl target
            if nextUrl = currentUrl then
              (chain', sc.2, Except.error (WalkErr.other "URL redirects to itself in a loop"))
            else walkLoop dns net (k + 1) fuel nextUrl chain' sc.2
      else
        if 400 ≤ status then
          (chain', sc.2, Except.error (WalkErr.httpStatus status currentUrl))
        else (chain', sc.2, Except.ok ())

/-- The result dict shared by the success and failure paths of
`check_url_status`: `status` and `serverName` come from the first chain
entry, with `emptyStatus` / `"N/A"` as the empty-chain sentinels. -/
def resultOfChain (url comment : String) (chain : List Hop)
    (emptyStatus : StatusField) : UrlResult :=
  { url := url
    status := match chain.head? with
      | some h => StatusField.num h.status
      | none => emptyStatus
    comment := comment
    serverName := ((chain.head?).map Hop.serverName).getD "N/A"
    redirectChain := chain }

/-- The comment chosen by the `except` block: note the final `else`
overwrites the `"An unexpected error occurred"` default with `str(e)`. -/
def errComment : WalkErr → String
  | WalkErr.timeout => "Request timed out after 60s"
  | WalkErr.httpStatus s _ => "HTTP Error: " ++ toString s
  | WalkErr.reqErr => "Request failed (Network/DNS error)"
  | WalkErr.other msg => msg

/-- The chain after the `except` block: `HTTPStatusError` appends the
failing hop once more, with serverName `"N/A"`. -/
def errChain (chain : List Hop) : WalkErr → List Hop
  | WalkErr.httpStatus s u => chain ++ [⟨u, s, "N/A"⟩]
  | _ => chain

/-- The `UrlResult` built by the `except` block of `check_url_status`. -/
def buildErrorResult (url : String) (chain : List Hop) (e : WalkErr) : UrlResult :=
  resultOfChain url (errComment e) (errChain chain e) StatusField.errStr

/-- `check_url_status(client, url)`: run the hop loop, then either the
post-loop `Too many redirects` check and the success dict, or the
`except` handler.  Returns the result and the final `ip_cache`. -/
def check_url_status (dns : String → Option String) (net : Nat → NetOutcome)
    (url : String) (cache : Cache) : UrlResult × Cache :=
  match walkLoop dns net 0 MAX_REDIRECTS url [] cache with
  | (chain, cache', Except.ok ()) =>
    if MAX_REDIRECTS ≤ chain.length then
      (buildErrorResult url chain (WalkErr.other "Too many redirects"), cache')
    else
      (resultOfChain url (if 1 < chain.length then "Redirect Chain" else "OK")
        chain StatusField.pyNone, cache')
  | (chain, cache', Except.error e) => (buildErrorResult url chain e, cache')

/-! ### Batch Orchestrator (`websocket_endpoint`) -/

/-- `should_throttle = len(urls) > 50`, computed on the RAW split lines,
before trimming and deduplication. -/
def should_throttle (data : String) : Bool := 50 < (splitlines data).length

/-- `dict.fromkeys` deduplication: keep the first occurrence, preserve order. -/
def dedupeAux (seen : List String) : List String → List String
  | [] => []
  | x :: xs => if x ∈ seen then dedupeAux seen xs else x :: dedupeAux (x :: seen) xs

def dedupe (l : List String) : List String := dedupeAux [] l

/-- `list(dict.fromkeys(u.strip() for u in urls if u.strip()))`. -/
def cleaned_urls (data : String) : List String :=
  dedupe (((splitlines data).map pyStrip).filter (fun u => u ≠ ""))

/-- The scheme-defaulting step of the task loop. -/
def normalizeScheme (u : String) : String :=
  if chStarts "http://".toList u.toList || chStarts "https://".toList u.toList then u
  else "https://" ++ u

/-- One message sent over the websocket. -/
inductive WsMessage where
  | result (r : UrlResult)
  | done
  deriving DecidableEq, Repr

/-- Run the batch of walks.  `netFor u` is the HTTP oracle for the walk of
`u`.  The real walks run concurrently sharing the global `ip_cache` and
results stream in completion order; the model threads the cache and emits
in submission order — the claims proved below do not depend on either. -/
def runBatch (dns : String → Option String) (netFor : String → Nat → NetOutcome) :
    List String → Cache → List WsMessage × Cache
  | [], cache => ([], cache)
  | u :: us, cache =>
    let rc := check_url_status dns (netFor u) (normalizeScheme u) cache
    let rest := runBatch dns netFor us rc.2
    (WsMessage.result rc.1 :: rest.1, rest.2)

/-- The message sequence `websocket_endpoint` emits for one batch: one
`UrlResult` per cleaned URL, then the terminal `{"status": "done"}`. -/
def websocket_messages (dns : String → Option String)
    (netFor : String → Nat → NetOutcome) (data : String) (cache : Cache) :
    List WsMessage :=
  (runBatch dns netFor (cleaned_urls data) cache).1 ++ [WsMessage.done]

/-! ### Concrete instances for witnesses and counterexamples -/

/-- A resolver for which every lookup fails. -/
def dns0 : String → Option String := fun _ => none

def urlsW1 : Nat → String := fun i => if i = 0 then "https://a.com" else "https://b.com"

def netW1 : Nat → NetOutcome := fun k =>
  if k = 0 then NetOutcome.resp 301 [("Location", "https://b.com")]
  else NetOutcome.resp 200 []

/-- 14 redirects followed by a 200 at the 15th hop. -/
def netTooMany : Nat → NetOutcome := fun k =>
  if k < 14 then NetOutcome.resp 301 [("Location", "https://e" ++ toString (k + 1) ++ ".com")]
  else NetOutcome.resp 200 []

def urlsAll : Nat → String := fun k => "https://e" ++ toString k ++ ".com"

/-- Every hop redirects to a fresh URL. -/
def netAllRed : Nat → NetOutcome := fun k =>
  NetOutcome.resp 302 [("Location", urlsAll (k + 1))]

/-- 14 redirects followed by a 404 at the 15th hop. -/
def netLen16 : Nat → NetOutcome := fun k =>
  if k < 14 then NetOutcome.resp 301 [("Location", "https://e" ++ toString (k + 1) ++ ".com")]
  else NetOutcome.resp 404 []

def urlsConst : Nat → String := fun _ => "https://a.com"

def net404 : Nat → NetOutcome := fun _ => NetOutcome.resp 404 []

def net301NoLoc : Nat → NetOutcome := fun _ => NetOutcome.resp 301 []

def netBoom : Nat → NetOutcome := fun _ => NetOutcome.otherExc "boom"

def netForNone : String → Nat → NetOutcome := fun _ _ => NetOutcome.resp 200 []

/-- Join lines with a newline (`"\n".join`). -/
def joinNl : List String → String
  | [] => ""
  | [s] => s
  | s :: ss => s ++ "\n" ++ joinNl ss

def data60 : String :=
  joinNl ((List.range 60).map (fun i => "site" ++ toString i ++ ".com"))

def data10 : String :=
  joinNl ((List.range 10).map (fun i => "site" ++ toString i ++ ".com"))

def data60dup : String := joinNl (List.replicate 60 "a.com")

def dataBlank : String := "\n   \n\t\n"

def dnsA : String → Option String := fun h => if h = "x.com" then some "1.2.3.4" else none

def dnsB : String → Option String := fun _ => some "1.2.3.4"


/-! ### Walk trace predicates and step lemmas -/

/-- The k-th response is a well-formed redirect taking the walk from
URL `u` to URL `u'` (3xx, non-empty `Location`, target distinct from `u`). -/
def GoodRedirect (net : Nat → NetOutcome) (k : Nat) (u u' : String) : Prop :=
  ∃ s hs l, net k = NetOutcome.resp s hs ∧ is_redirect s = true ∧
    httpxHeaderGet hs "location" = some l ∧ l ≠ "" ∧ urljoin u l = u' ∧ u' ≠ u

theorem walkLoop_step_redirect (dns : String → Option String) (net : Nat → NetOutcome)
    (k fuel : Nat) (u u' target : String) (chain : List Hop) (cache : Cache)
    (s : Nat) (hs : List (String × String))
    (hnet : net k = NetOutcome.resp s hs) (hred : is_redirect s = true)
    (hloc : httpxHeaderGet hs "location" = some target) (hne : target ≠ "")
    (hjoin : urljoin u target = u') (hneq : u' ≠ u) :
    walkLoop dns net k (fuel + 1) u chain cache =
      walkLoop dns net (k + 1) fuel u'
        (chain ++ [⟨u, s, (get_server_name_advanced dns hs u cache).1⟩])
        (get_server_name_advanced dns hs u cache).2 := by
  simp [walkLoop, hnet, hred, hloc, hne, hjoin, hneq]

theorem walkLoop_step_success (dns : String → Option String) (net : Nat → NetOutcome)
    (k fuel : Nat) (u : String) (chain : List Hop) (cache : Cache)
    (s : Nat) (hs : List (String × String))
    (hnet : net k = NetOutcome.resp s hs) (hnr : is_redirect s = false) (hlt : s < 400) :
    walkLoop dns net k (fuel + 1) u chain cache =
      (chain ++ [⟨u, s, (get_server_name_advanced dns hs u cache).1⟩],
       (get_server_name_advanced dns hs u cache).2, Except.ok ()) := by
  simp [walkLoop, hnet, hnr, Nat.not_le.mpr hlt]

theorem walkLoop_step_httpError (dns : String → Option String) (net : Nat → NetOutcome)
    (k fuel : Nat) (u : String) (chain : List Hop) (cache : Cache)
    (s : Nat) (hs : List (String × String))
    (hnet : net k = NetOutcome.resp s hs) (hge : 400 ≤ s) :
    walkLoop dns net k (fuel + 1) u chain cache =
      (chain ++ [⟨u, s, (get_server_name_advanced dns hs u cache).1⟩],
       (get_server_name_advanced dns hs u cache).2,
       Except.error (WalkErr.httpStatus s u)) := by
  have hnr : is_redirect s = false := by
    simp [is_redirect]
    omega
  simp [walkLoop, hnet, hnr, hge]

theorem walkLoop_step_missingLoc (dns : String → Option String) (net : Nat → NetOutcome)
    (k fuel : Nat) (u : String) (chain : List Hop) (cache : Cache)
    (s : Nat) (hs : List (String × String))
    (hnet : net k = NetOutcome.resp s hs) (hred : is_redirect s = true)
    (hloc : httpxHeaderGet hs "location" = none) :
    walkLoop dns net k (fuel + 1) u chain cache =
      (chain ++ [⟨u, s, (get_server_name_advanced dns hs u cache).1⟩],
       (get_server_name_advanced dns hs u cache).2,
       Except.error (WalkErr.other "Redirect missing location header")) := by
  simp [walkLoop, hnet, hred, hloc]

theorem walkLoop_step_otherExc (dns : String → Option String) (net : Nat → NetOutcome)
    (k fuel : Nat) (u : String) (chain : List Hop) (cache : Cache) (msg : String)
    (hnet : net k = NetOutcome.otherExc msg) :
    walkLoop dns net k (fuel + 1) u chain cache =
      (chain, cache, Except.error (WalkErr.other msg)) := by
  simp [walkLoop, hnet]

/-- After `m` well-formed redirects the loop is at request `k + m`, URL
`urls m`, with `m` hops appended; the first appended hop (when `m > 0`)
records the first response's status and classification. -/
theorem walkLoop_skip (dns : String → Option String) (net : Nat → NetOutcome) :
    ∀ (m : Nat) (f k : Nat) (urls : Nat → String) (chain : List Hop) (cache : Cache),
    (∀ i, i < m → GoodRedirect net (k + i) (urls i) (urls (i + 1))) →
    ∃ L cache',
      walkLoop dns net k (m + f) (urls 0) chain cache
        = walkLoop dns net (k + m) f (urls m) (chain ++ L) cache' ∧
      L.length = m ∧
      (∀ s hs, 0 < m → net k = NetOutcome.resp s hs →
        L.head? = some ⟨urls 0, s, (get_server_name_advanced dns hs (urls 0) cache).1⟩) := by
  intro m
  induction m with
  | zero =>
    intro f k urls chain cache _
    exact ⟨[], cache, by simp, rfl, by simp⟩
  | succ m ih =>
    intro f k urls chain cache hred
    obtain ⟨s, hs, l, hnet, hr, hl, hne, hj, hq⟩ := by
      have h := hred 0 (Nat.succ_pos m)
      rwa [Nat.add_zero] at h
    have hfuel : m + 1 + f = (m + f) + 1 := by omega
    rw [hfuel, walkLoop_step_redirect dns net k (m + f) (urls 0) (urls 1) l chain cache s hs
      hnet hr hl hne hj hq]
    obtain ⟨L', cache', heq, hlen, -⟩ :=
      ih f (k + 1) (fun i => urls (i + 1))
        (chain ++ [⟨urls 0, s, (get_server_name_advanced dns hs (urls 0) cache).1⟩])
        (get_server_name_advanced dns hs (urls 0) cache).2
        (fun i hi => by
          have h := hred (i + 1) (by omega)
          rwa [show k + (i + 1) = k + 1 + i by omega] at h)
    refine ⟨⟨urls 0, s, (get_server_name_advanced dns hs (urls 0) cache).1⟩ :: L', cache', ?_, ?_, ?_⟩
    · rw [heq, show k + 1 + m = k + (m + 1) by omega]
      simp
    · simp [hlen]
    · intro s' hs' _ hnet'
      rw [hnet] at hnet'
      cases hnet'
      rfl

/-- The chain grows by at most one hop per loop iteration. -/
theorem walkLoop_length (dns : String → Option String) (net : Nat → NetOutcome) :
    ∀ (fuel k : Nat) (u : String) (chain : List Hop) (cache : Cache),
    ((walkLoop dns net k fuel u chain cache).1).length ≤ chain.length + fuel := by
  intro fuel
  induction fuel with
  | zero => intro k u chain cache; simp [walkLoop]
  | succ fuel ih =>
    intro k u chain cache
    cases hnet : net k with
    | timeout => simp [walkLoop, hnet]
    | reqError => simp [walkLoop, hnet]
    | otherExc m => simp [walkLoop, hnet]
    | resp s hs =>
      by_cases hr : is_redirect s
      · cases hloc : httpxHeaderGet hs "location" with
        | none => simp [walkLoop, hnet, hr, hloc]
        | some t =>
          by_cases ht : t = ""
          · simp [walkLoop, hnet, hr, hloc, ht]
          · by_cases hself : urljoin u t = u
            · simp [walkLoop, hnet, hr, hloc, ht, hself]
            · have h := ih (k + 1) (urljoin u t)
                (chain ++ [⟨u, s, (get_server_name_advanced dns hs u cache).1⟩])
                (get_server_name_advanced dns hs u cache).2
              simp only [walkLoop, hnet, hr, hloc, ht, hself, if_true, if_false,
                if_neg hself, if_neg ht, if_pos hr]
              simp only [List.length_append, List.length_cons, List.length_nil] at h
              calc ((walkLoop dns net (k + 1) fuel (urljoin u t)
                      (chain ++ [⟨u, s, (get_server_name_advanced dns hs u cache).1⟩])
                      (get_server_name_advanced dns hs u cache).2).1).length
                  ≤ chain.length + 1 + fuel := by simpa using h
                _ ≤ chain.length + (fuel + 1) := by omega
      · by_cases h4 : 400 ≤ s
        · simp [walkLoop, hnet, hr, h4]
        · simp [walkLoop, hnet, hr, h4]

/-- The loop consults the oracle only at indices `k, …, k + fuel - 1`:
with fuel 15 no 16th request can influence the walk. -/
theorem walkLoop_agree (dns : String → Option String) :
    ∀ (fuel k : Nat) (u : String) (chain : List Hop) (cache : Cache)
      (net net' : Nat → NetOutcome),
    (∀ i, k ≤ i → i < k + fuel → net i = net' i) →
    walkLoop dns net k fuel u chain cache = walkLoop dns net' k fuel u chain cache := by
  intro fuel
  induction fuel with
  | zero => intro k u chain cache net net' _; rfl
  | succ fuel ih =>
    intro k u chain cache net net' hag
    have hk : net k = net' k := hag k le_rfl (by omega)
    cases hnet : net' k with
    | timeout => simp [walkLoop, hk, hnet]
    | reqError => simp [walkLoop, hk, hnet]
    | otherExc m => simp [walkLoop, hk, hnet]
    | resp s hs =>
      by_cases hr : is_redirect s
      · cases hloc : httpxHeaderGet hs "location" with
        | none => simp [walkLoop, hk, hnet, hr, hloc]
        | some t =>
          by_cases ht : t = ""
          · simp [walkLoop, hk, hnet, hr, hloc, ht]
          · by_cases hself : urljoin u t = u
            · simp [walkLoop, hk, hnet, hr, hloc, ht, hself]
            · simp only [walkLoop, hk, hnet, hr, hloc, ht, hself, if_pos hr,
                if_neg ht, if_neg hself]
              exact ih (k + 1) (urljoin u t)
                (chain ++ [⟨u, s, (get_server_name_advanced dns hs u cache).1⟩])
                (get_server_name_advanced dns hs u cache).2 net net'
                (fun i h1 h2 => hag i (by omega) (by omega))
      · simp [walkLoop, hk, hnet, hr]

/-! ### `check_url_status` unfolding helpers -/

theorem resultOfChain_first_hop (url comment : String) (chain : List Hop)
    (es : StatusField) (h0 : Hop)
    (h : ((resultOfChain url comment chain es).redirectChain).head? = some h0) :
    (resultOfChain url comment chain es).status = StatusField.num h0.status ∧
    (resultOfChain url comment chain es).serverName = h0.serverName := by
  unfold resultOfChain at h ⊢
  dsimp only at h ⊢
  rw [h]
  simp

theorem check_of_ok (dns : String → Option String) (net : Nat → NetOutcome)
    (url : String) (cache : Cache) (chain : List Hop) (cache' : Cache)
    (heq : walkLoop dns net 0 MAX_REDIRECTS url [] cache = (chain, cache', Except.ok ()))
    (hlt : chain.length < MAX_REDIRECTS) :
    check_url_status dns net url cache =
      (resultOfChain url (if 1 < chain.length then "Redirect Chain" else "OK")
        chain StatusField.pyNone, cache') := by
  simp only [check_url_status, heq]
  rw [if_neg (Nat.not_le.mpr hlt)]

theorem check_of_ok_full (dns : String → Option String) (net : Nat → NetOutcome)
    (url : String) (cache : Cache) (chain : List Hop) (cache' : Cache)
    (heq : walkLoop dns net 0 MAX_REDIRECTS url [] cache = (chain, cache', Except.ok ()))
    (hge : MAX_REDIRECTS ≤ chain.length) :
    check_url_status dns net url cache =
      (buildErrorResult url chain (WalkErr.other "Too many redirects"), cache') := by
  simp only [check_url_status, heq]
  rw [if_pos hge]

theorem check_of_err (dns : String → Option String) (net : Nat → NetOutcome)
    (url : String) (cache : Cache) (chain : List Hop) (cache' : Cache) (e : WalkErr)
    (heq : walkLoop dns net 0 MAX_REDIRECTS url [] cache = (chain, cache', Except.error e)) :
    check_url_status dns net url cache = (buildErrorResult url chain e, cache') := by
  simp only [check_url_status, heq]

/-! ### IP Oracle lemmas -/

theorem resolve_ip_async_agree (dns dns' : String → Option String)
    (hostname : Option String) (cache : Cache)
    (h : ∀ s, hostname = some s → dns s = dns' s) :
    resolve_ip_async dns hostname cache = resolve_ip_async dns' hostname cache := by
  cases hostname with
  | none => rfl
  | some s => simp [resolve_ip_async, h s rfl]

theorem get_server_name_dns_agree (dns dns' : String → Option String)
    (headers : List (String × String)) (url : String) (cache : Cache)
    (h : ∀ s, pyHostname url = some s → dns s = dns' s) :
    get_server_name_advanced dns headers url cache
      = get_server_name_advanced dns' headers url cache := by
  simp only [get_server_name_advanced,
    resolve_ip_async_agree dns dns' (pyHostname url) cache h]

/-! ### Claim theorems for the walker -/

/-- C1 (amended): if every hop before `n` is a redirect with a non-empty
`Location` whose resolved target differs from the current URL, and hop `n`
(for `1 ≤ n ≤ 14`) is a non-redirect response with status `< 400`, then
`walk` succeeds: `comment` is `"OK"` for `n = 1` and `"Redirect Chain"` for
`n > 1`, the chain has exactly `n` hops, and `status` / `serverName` are
those of the first hop.  (The claim's `n = 15` case is false: the post-loop
`len(redirect_chain) >= MAX_REDIRECTS` check fires even after a successful
15th hop — see the counterexample.) -/
theorem walk_success_result (dns : String → Option String) (net : Nat → NetOutcome)
    (urls : Nat → String) (cache : Cache) (n : Nat)
    (hn1 : 1 ≤ n) (hn14 : n ≤ 14)
    (hred : ∀ i, i + 1 < n → GoodRedirect net i (urls i) (urls (i + 1)))
    (hfin : ∃ s hs, net (n - 1) = NetOutcome.resp s hs ∧ is_redirect s = false ∧ s < 400) :
    ∃ h0 rest,
      (check_url_status dns net (urls 0) cache).1.redirectChain = h0 :: rest ∧
      (check_url_status dns net (urls 0) cache).1.comment
        = (if 1 < n then "Redirect Chain" else "OK") ∧
      (h0 :: rest).length = n ∧
      (check_url_status dns net (urls 0) cache).1.status = StatusField.num h0.status ∧
      (check_url_status dns net (urls 0) cache).1.serverName = h0.serverName ∧
      (check_url_status dns net (urls 0) cache).1.url = urls 0 ∧
      h0.url = urls 0 ∧
      (∀ s hs, net 0 = NetOutcome.resp s hs → h0.status = s) := by
  obtain ⟨s, hs, hnet, hnr, hlt⟩ := hfin
  obtain ⟨L, cache1, heq, hlen, hhead⟩ :=
    walkLoop_skip dns net (n - 1) (15 - (n - 1)) 0 urls [] cache
      (fun i hi => by simpa using hred i (by omega))
  rw [show (n - 1) + (15 - (n - 1)) = MAX_REDIRECTS from by
    simp only [MAX_REDIRECTS]; omega] at heq
  obtain ⟨f', hf'⟩ : ∃ f', 15 - (n - 1) = f' + 1 := ⟨15 - (n - 1) - 1, by omega⟩
  rw [hf'] at heq
  rw [walkLoop_step_success dns net (0 + (n - 1)) f' (urls (n - 1)) ([] ++ L) cache1 s hs
    (by simpa using hnet) hnr hlt] at heq
  simp only [List.nil_append] at heq
  have hclen : (L ++ [(⟨urls (n - 1), s,
      (get_server_name_advanced dns hs (urls (n - 1)) cache1).1⟩ : Hop)]).length = n := by
    simp [hlen]; omega
  have hc := check_of_ok dns net (urls 0) cache
    (L ++ [⟨urls (n - 1), s, (get_server_name_advanced dns hs (urls (n - 1)) cache1).1⟩])
    ((get_server_name_advanced dns hs (urls (n - 1)) cache1).2) heq
    (by rw [hclen]; simp only [MAX_REDIRECTS]; omega)
  rw [hclen] at hc
  rcases L with - | ⟨h0, L'⟩
  · -- n = 1: the single hop is the final one
    have hn : n = 1 := by simp at hlen; omega
    refine ⟨⟨urls (n - 1), s, (get_server_name_advanced dns hs (urls (n - 1)) cache1).1⟩,
      [], ?_, ?_, ?_, ?_, ?_, ?_, ?_, ?_⟩
    · rw [hc]; rfl
    · rw [hc]; rfl
    · simpa using hn.symm
    · rw [hc]; rfl
    · rw [hc]; rfl
    · rw [hc]; rfl
    · simp [hn]
    · intro s' hs' hnet'
      rw [show (0 : Nat) = n - 1 by omega, hnet] at hnet'
      cases hnet'
      rfl
  · -- n ≥ 2: the first hop comes from the first redirect
    have hpos : 0 < n - 1 := by
      simp only [List.length_cons] at hlen
      omega
    obtain ⟨s0, hs0, l0, hnet0, -, -, -, -, -⟩ := hred 0 (by omega)
    have hh := hhead s0 hs0 hpos hnet0
    simp only [List.head?_cons, Option.some.injEq] at hh
    subst hh
    refine ⟨⟨urls 0, s0, (get_server_name_advanced dns hs0 (urls 0) cache).1⟩,
      L' ++ [⟨urls (n - 1), s, (get_server_name_advanced dns hs (urls (n - 1)) cache1).1⟩],
      ?_, ?_, ?_, ?_, ?_, ?_, ?_, ?_⟩
    · rw [hc]; rfl
    · rw [hc]; rfl
    · simpa using hclen
    · rw [hc]; rfl
    · rw [hc]; rfl
    · rw [hc]; rfl
    · rfl
    · intro s' hs' hnet'
      rw [hnet0] at hnet'
      cases hnet'
      rfl

/-- C2 (amended): (1) every returned chain has at most 16 entries — not 15:
the `HTTPStatusError` handler appends the failing hop a second time, so a
walk whose 15th response is an HTTP error yields 16 entries (see the
counterexample); (2) a walk in which all 15 allowed hops respond with
well-formed redirects fails with `"Too many redirects"` and a 15-hop chain;
(3) the walk never attempts a 16th hop: its outcome depends only on the
first 15 oracle responses. -/
theorem walk_chain_bound_and_too_many :
    (∀ (dns : String → Option String) (net : Nat → NetOutcome) (url : String)
       (cache : Cache),
      ((check_url_status dns net url cache).1.redirectChain).length ≤ 16) ∧
    (∀ (dns : String → Option String) (net : Nat → NetOutcome) (urls : Nat → String)
       (cache : Cache),
      (∀ i, i < 15 → GoodRedirect net i (urls i) (urls (i + 1))) →
      (check_url_status dns net (urls 0) cache).1.comment = "Too many redirects" ∧
      ((check_url_status dns net (urls 0) cache).1.redirectChain).length = 15) ∧
    (∀ (dns : String → Option String) (net net' : Nat → NetOutcome) (url : String)
       (cache : Cache),
      (∀ i, i < 15 → net i = net' i) →
      check_url_status dns net url cache = check_url_status dns net' url cache) := by
  refine ⟨?_, ?_, ?_⟩
  · intro dns net url cache
    have hb := walkLoop_length dns net MAX_REDIRECTS 0 url [] cache
    rcases hw : walkLoop dns net 0 MAX_REDIRECTS url [] cache with ⟨chain, cache', e | ⟨⟩⟩
    · rw [hw] at hb
      simp [MAX_REDIRECTS] at hb
      rw [check_of_err dns net url cache chain cache' e hw]
      simp only [buildErrorResult, resultOfChain]
      cases e <;> simp only [errChain, List.length_append, List.length_cons,
        List.length_nil] <;> omega
    · rw [hw] at hb
      simp [MAX_REDIRECTS] at hb
      by_cases hfull : MAX_REDIRECTS ≤ chain.length
      · rw [check_of_ok_full dns net url cache chain cache' hw hfull]
        simp only [buildErrorResult, errChain, resultOfChain]
        omega
      · rw [check_of_ok dns net url cache chain cache' hw (Nat.not_le.mp hfull)]
        simp only [resultOfChain]
        omega
  · intro dns net urls cache hred
    obtain ⟨L, cache1, heq, hlen, -⟩ :=
      walkLoop_skip dns net 15 0 0 urls [] cache (fun i hi => by simpa using hred i hi)
    rw [show (15 : Nat) + 0 = MAX_REDIRECTS from by simp [MAX_REDIRECTS]] at heq
    have heq2 : walkLoop dns net 0 MAX_REDIRECTS (urls 0) [] cache
        = (L, cache1, Except.ok ()) := by
      rw [heq]
      simp [walkLoop]
    have hc := check_of_ok_full dns net (urls 0) cache L cache1 heq2 (by
      simp [MAX_REDIRECTS, hlen])
    rw [hc]
    constructor
    · rfl
    · simpa [buildErrorResult, errChain, resultOfChain] using hlen
  · intro dns net net' url cache hag
    have h := walkLoop_agree dns MAX_REDIRECTS 0 url [] cache net net'
      (fun i h1 h2 => hag i (by simpa [MAX_REDIRECTS] using h2))
    unfold check_url_status
    rw [h]

/-- C3 (amended): if every hop before `n` is a well-formed redirect and hop
`n` (for `1 ≤ n ≤ 15`) is a non-redirect response with status `≥ 400`, the
walk fails with `comment = "HTTP Error: {status}"`, the failing hop is
recorded TWICE — once by the loop with its classified serverName and once
by the error handler with serverName `"N/A"`, as the final two of `n + 1`
chain entries — and `status` / `serverName` come from the first chain
entry. -/
theorem walk_http_error_result (dns : String → Option String) (net : Nat → NetOutcome)
    (urls : Nat → String) (cache : Cache) (n : Nat)
    (hn1 : 1 ≤ n) (hn15 : n ≤ 15)
    (hred : ∀ i, i + 1 < n → GoodRedirect net i (urls i) (urls (i + 1)))
    (hfin : ∃ s hs, net (n - 1) = NetOutcome.resp s hs ∧ 400 ≤ s) :
    ∃ s hs sv L,
      net (n - 1) = NetOutcome.resp s hs ∧
      (check_url_status dns net (urls 0) cache).1.comment
        = "HTTP Error: " ++ toString s ∧
      (check_url_status dns net (urls 0) cache).1.redirectChain
        = L ++ [⟨urls (n - 1), s, sv⟩, ⟨urls (n - 1), s, "N/A"⟩] ∧
      L.length = n - 1 ∧
      (∀ h0, ((check_url_status dns net (urls 0) cache).1.redirectChain).head? = some h0 →
        (check_url_status dns net (urls 0) cache).1.status = StatusField.num h0.status ∧
        (check_url_status dns net (urls 0) cache).1.serverName = h0.serverName) := by
  obtain ⟨s, hs, hnet, hge⟩ := hfin
  obtain ⟨L, cache1, heq, hlen, -⟩ :=
    walkLoop_skip dns net (n - 1) (15 - (n - 1)) 0 urls [] cache
      (fun i hi => by simpa using hred i (by omega))
  rw [show (n - 1) + (15 - (n - 1)) = MAX_REDIRECTS from by
    simp only [MAX_REDIRECTS]; omega] at heq
  obtain ⟨f', hf'⟩ : ∃ f', 15 - (n - 1) = f' + 1 := ⟨15 - (n - 1) - 1, by omega⟩
  rw [hf'] at heq
  rw [walkLoop_step_httpError dns net (0 + (n - 1)) f' (urls (n - 1)) ([] ++ L) cache1 s hs
    (by simpa using hnet) hge] at heq
  simp only [List.nil_append] at heq
  have hc := check_of_err dns net (urls 0) cache _ _ _ heq
  refine ⟨s, hs, (get_server_name_advanced dns hs (urls (n - 1)) cache1).1, L,
    hnet, ?_, ?_, hlen, ?_⟩
  · rw [hc]; rfl
  · rw [hc]
    simp [buildErrorResult, errChain, resultOfChain]
  · intro h0 hh0
    rw [hc] at hh0 ⊢
    exact resultOfChain_first_hop _ _ _ _ h0 hh0

/-- C7 (confirmed): if every hop before `n` is a well-formed redirect and
hop `n` (for `1 ≤ n ≤ 15`) is a 3xx response whose headers contain no
`Location` header, the walk fails and the returned `UrlResult`'s comment is
`"Redirect missing location header"`. -/
theorem walk_missing_location (dns : String → Option String) (net : Nat → NetOutcome)
    (urls : Nat → String) (cache : Cache) (n : Nat)
    (hn1 : 1 ≤ n) (hn15 : n ≤ 15)
    (hred : ∀ i, i + 1 < n → GoodRedirect net i (urls i) (urls (i + 1)))
    (hfin : ∃ s hs, net (n - 1) = NetOutcome.resp s hs ∧ is_redirect s = true ∧
      httpxHeaderGet hs "location" = none) :
    (check_url_status dns net (urls 0) cache).1.comment
      = "Redirect missing location header" := by
  obtain ⟨s, hs, hnet, hr, hloc⟩ := hfin
  obtain ⟨L, cache1, heq, hlen, -⟩ :=
    walkLoop_skip dns net (n - 1) (15 - (n - 1)) 0 urls [] cache
      (fun i hi => by simpa using hred i (by omega))
  rw [show (n - 1) + (15 - (n - 1)) = MAX_REDIRECTS from by
    simp only [MAX_REDIRECTS]; omega] at heq
  obtain ⟨f', hf'⟩ : ∃ f', 15 - (n - 1) = f' + 1 := ⟨15 - (n - 1) - 1, by omega⟩
  rw [hf'] at heq
  rw [walkLoop_step_missingLoc dns net (0 + (n - 1)) f' (urls (n - 1)) ([] ++ L) cache1 s hs
    (by simpa using hnet) hr hloc] at heq
  rw [check_of_err dns net (urls 0) cache _ _ _ heq]
  rfl

/-- C8 (amended): if every hop before `n` is a well-formed redirect and the
GET of hop `n` (for `1 ≤ n ≤ 15`) raises an exception outside the named
taxonomy, the failure is caught — a `UrlResult` is still returned — but its
comment is `str(e)`, the raised exception's own message, NOT the fixed text
`"An unexpected error occurred"` (that default is dead: the handler's
`else` branch overwrites it — see the counterexample). -/
theorem walk_unexpected_error (dns : String → Option String) (net : Nat → NetOutcome)
    (urls : Nat → String) (cache : Cache) (n : Nat) (msg : String)
    (hn1 : 1 ≤ n) (hn15 : n ≤ 15)
    (hred : ∀ i, i + 1 < n → GoodRedirect net i (urls i) (urls (i + 1)))
    (hexc : net (n - 1) = NetOutcome.otherExc msg) :
    (check_url_status dns net (urls 0) cache).1.comment = msg := by
  obtain ⟨L, cache1, heq, hlen, -⟩ :=
    walkLoop_skip dns net (n - 1) (15 - (n - 1)) 0 urls [] cache
      (fun i hi => by simpa using hred i (by omega))
  rw [show (n - 1) + (15 - (n - 1)) = MAX_REDIRECTS from by
    simp only [MAX_REDIRECTS]; omega] at heq
  obtain ⟨f', hf'⟩ : ∃ f', 15 - (n - 1) = f' + 1 := ⟨15 - (n - 1) - 1, by omega⟩
  rw [hf'] at heq
  rw [walkLoop_step_otherExc dns net (0 + (n - 1)) f' (urls (n - 1)) ([] ++ L) cache1 msg
    (by simpa using hexc)] at heq
  rw [check_of_err dns net (urls 0) cache _ _ _ heq]
  rfl

/-! ### Claim theorems for the classifier and IP oracle -/

/-- C5 (amended): when the BMW/MINI override does not apply and the
`Server` header is present and non-empty, the classifier returns "Akamai"
if the value contains "akamai" or "ghost" (case-insensitively),
"Apache (AEM)" if it contains "apache", and otherwise the header value
LOWERCASED with its first character capitalized — the remaining characters
are not kept as received: `server_value` is lowercased before
`capitalize()` (see the counterexample with `Server: NGINX`). -/
theorem classifier_server_header (dns : String → Option String)
    (headers : List (String × String)) (url : String) (cache : Cache)
    (hov : bmwOverride headers url = false)
    (hsv : pyLower (dictGetD (lowerDict headers) "server" "") ≠ "") :
    (get_server_name_advanced dns headers url cache).1 =
      (if strIn "akamai" (pyLower (dictGetD (lowerDict headers) "server" ""))
          || strIn "ghost" (pyLower (dictGetD (lowerDict headers) "server" "")) then
        "Akamai"
       else if strIn "apache" (pyLower (dictGetD (lowerDict headers) "server" "")) then
        "Apache (AEM)"
       else pyCapitalize (pyLower (dictGetD (lowerDict headers) "server" ""))) := by
  simp [get_server_name_advanced, hov, hsv]

/-- C9 (confirmed): the classifier is total and deterministic.  (1) For
every headers map, URL and cache state it returns a label, always one of
"Apache (AEM)", "Akamai", "Unknown" or the capitalized lowercased `Server`
header value — the model is a total function, so no exception can escape;
(2) the label depends on the DNS collaborator only through the hostname of
the URL: two runs whose resolvers agree there (in particular two runs with
the same resolver and cache state) return identical results in all four
branches. -/
theorem classifier_total_deterministic :
    (∀ (dns : String → Option String) (headers : List (String × String))
       (url : String) (cache : Cache),
      (get_server_name_advanced dns headers url cache).1 = "Apache (AEM)" ∨
      (get_server_name_advanced dns headers url cache).1 = "Akamai" ∨
      (get_server_name_advanced dns headers url cache).1 = "Unknown" ∨
      (get_server_name_advanced dns headers url cache).1
        = pyCapitalize (pyLower (dictGetD (lowerDict headers) "server" ""))) ∧
    (∀ (dns dns' : String → Option String) (headers : List (String × String))
       (url : String) (cache : Cache),
      (∀ s, pyHostname url = some s → dns s = dns' s) →
      get_server_name_advanced dns headers url cache
        = get_server_name_advanced dns' headers url cache) := by
  constructor
  · intro dns headers url cache
    unfold get_server_name_advanced
    split_ifs <;> simp <;> split_ifs <;> simp
  · intro dns dns' headers url cache h
    exact get_server_name_dns_agree dns dns' headers url cache h

/-- C6 (amended): `resolve` is total (never raises): an empty or absent
hostname and a resolution failure all yield "absent" (`none`).  A
SUCCESSFUL resolution is cached, but a failure is NOT cached — the cache is
returned unchanged, so a later resolve of the same failing hostname
performs the lookup again (see the counterexample; the claim's "cached as
such" is false). -/
theorem resolve_absent_behaviour (dns : String → Option String)
    (hostname : Option String) (cache : Cache) :
    (hostname = none ∨ hostname = some "" →
      resolve_ip_async dns hostname cache = (none, cache, false)) ∧
    (∀ h, hostname = some h → h ≠ "" → dictGet cache h = none → dns h = none →
      resolve_ip_async dns hostname cache = (none, cache, true) ∧
      (resolve_ip_async dns (some h)
        ((resolve_ip_async dns hostname cache).2.1)).2.2 = true) := by
  constructor
  · rintro (rfl | rfl)
    · rfl
    · rfl
  · rintro h rfl hne hmiss hfail
    have h1 : resolve_ip_async dns (some h) cache = (none, cache, true) := by
      simp [resolve_ip_async, hne, hmiss, hfail]
    refine ⟨h1, ?_⟩
    rw [h1]
    simp [resolve_ip_async, hne, hmiss, hfail]

/-! ### Claim theorems for the orchestrator -/

theorem dedupeAux_length_le (seen : List String) :
    ∀ l : List String, (dedupeAux seen l).length ≤ l.length := by
  intro l
  induction l generalizing seen with
  | nil => simp [dedupeAux]
  | cons x xs ih =>
    by_cases hx : x ∈ seen
    · simp only [dedupeAux, if_pos hx]
      exact Nat.le_trans (ih seen) (by simp)
    · simp only [dedupeAux, if_neg hx, List.length_cons]
      exact Nat.succ_le_succ (ih (x :: seen))

/-- The deduplicated, trimmed, non-empty entries are never more numerous
than the raw lines. -/
theorem cleaned_urls_length_le (data : String) :
    (cleaned_urls data).length ≤ (splitlines data).length := by
  unfold cleaned_urls dedupe
  calc (dedupeAux [] (((splitlines data).map pyStrip).filter (fun u => u ≠ ""))).length
      ≤ (((splitlines data).map pyStrip).filter (fun u => u ≠ "")).length :=
        dedupeAux_length_le [] _
    _ ≤ (((splitlines data).map pyStrip)).length := List.length_filter_le _ _
    _ = (splitlines data).length := List.length_map _ _

/-- C10 (confirmed): a batch message whose lines are all empty or
whitespace-only produces no `UrlResult` messages: the orchestrator emits
only the terminal done marker (and, being a total function, cannot raise). -/
theorem websocket_all_blank (dns : String → Option String)
    (netFor : String → Nat → NetOutcome) (data : String) (cache : Cache)
    (hblank : ∀ l ∈ splitlines data, pyStrip l = "") :
    websocket_messages dns netFor data cache = [WsMessage.done] := by
  have hclean : cleaned_urls data = [] := by
    unfold cleaned_urls dedupe
    have hfil : ((splitlines data).map pyStrip).filter (fun u => u ≠ "") = [] := by
      rw [List.filter_eq_nil]
      intro a ha
      obtain ⟨l, hl, rfl⟩ := List.mem_map.mp ha
      simp [hblank l hl]
    rw [hfil]
    rfl
  unfold websocket_messages
  rw [hclean]
  rfl

set_option maxRecDepth 10000 in
/-- C4 (amended): the throttle flag is computed from the RAW line count of
the received message — `len(urls) > 50` is evaluated on the split lines
BEFORE trimming and deduplication — not from the deduplicated count.
Since distinct cleaned entries are never more numerous than raw lines,
more than 50 deduplicated URLs still implies throttling; in particular a
batch of 60 distinct URLs (one per line) is throttled and a batch of 10 is
not.  But the claim's "if and only if" is false: 60 duplicate lines of one
URL also throttle (see the counterexample). -/
theorem throttle_condition :
    (∀ data : String, 50 < (cleaned_urls data).length → should_throttle data = true) ∧
    should_throttle data60 = true ∧ (cleaned_urls data60).length = 60 ∧
    should_throttle data10 = false ∧ (cleaned_urls data10).length = 10 := by
  refine ⟨?_, by decide, by decide, by decide, by decide⟩
  intro data h
  have hle := cleaned_urls_length_le data
  simp only [should_throttle, decide_eq_true_eq]
  omega

theorem httpxHeaderGet_location (v : String) :
    httpxHeaderGet [("Location", v)] "location" = some v := by
  have hp : pyLower "Location" = "location" := by decide
  unfold httpxHeaderGet
  rw [List.find?_cons_of_pos _ (by simp [hp])]
  rfl

/-! ### Witnesses and counterexamples -/

/-- C1 witness: one redirect then a 200 gives a success with
comment "Redirect Chain". -/
theorem walk_success_result_witness :
    (check_url_status dns0 netW1 (urlsW1 0) []).1.comment = "Redirect Chain" := by
  obtain ⟨h0, rest, -, hcomment, -, -, -, -, -, -⟩ :=
    walk_success_result dns0 netW1 urlsW1 [] 2 (by omega) (by omega)
      (fun i hi => by
        have hz : i = 0 := by omega
        subst hz
        exact ⟨301, [("Location", "https://b.com")], "https://b.com", by decide, by decide,
          by decide, by decide, by decide, by decide⟩)
      ⟨200, [], by decide, by decide, by omega⟩
  rw [hcomment]
  decide

set_option maxRecDepth 10000 in
/-- C1 counterexample: with 14 redirects and a 200 at the 15th hop — a walk
satisfying the claim's hypotheses at n = 15 — the comment is
"Too many redirects", not "Redirect Chain" as the claim states. -/
theorem walk_success_at_15_counterexample :
    (check_url_status dns0 netTooMany "https://e0.com" []).1.comment
      = "Too many redirects" ∧
    (check_url_status dns0 netTooMany "https://e0.com" []).1.comment
      ≠ "Redirect Chain" := by decide

/-- C2 witness: a walk whose 15 allowed hops all redirect reports
"Too many redirects". -/
theorem walk_chain_bound_witness :
    (check_url_status dns0 netAllRed (urlsAll 0) []).1.comment = "Too many redirects" :=
  (walk_chain_bound_and_too_many.2.1 dns0 netAllRed urlsAll []
    (fun i hi => by
      interval_cases i <;>
        exact ⟨302, _, _, rfl, by decide, httpxHeaderGet_location _, by decide,
          by decide, by decide⟩)).1

set_option maxRecDepth 10000 in
/-- C2 counterexample: 14 redirects followed by a 404 produce a chain of 16
entries, refuting the claimed bound of 15. -/
theorem walk_chain_length_16_counterexample :
    ((check_url_status dns0 netLen16 "https://e0.com" []).1.redirectChain).length = 16 := by
  decide

/-- C3 witness: a direct 404 yields comment "HTTP Error: 404". -/
theorem walk_http_error_result_witness :
    (check_url_status dns0 net404 (urlsConst 0) []).1.comment = "HTTP Error: 404" := by
  obtain ⟨s, hs, sv, L, hnet, hcomment, -, -, -⟩ :=
    walk_http_error_result dns0 net404 urlsConst [] 1 (by omega) (by omega)
      (fun i hi => absurd hi (by omega))
      ⟨404, [], by decide, by omega⟩
  have hs404 : s = 404 := by
    have h4 : net404 0 = NetOutcome.resp 404 [] := by decide
    rw [h4] at hnet
    injection hnet with h1 h2
    exact h1.symm
  rw [hcomment, hs404]
  decide

/-- C3 counterexample: on a one-hop 404 walk the failing hop is NOT "the
single final chain entry": it appears twice, as both entries of a
two-entry chain. -/
theorem walk_http_error_double_hop_counterexample :
    ((check_url_status dns0 net404 "https://a.com" []).1.redirectChain).length = 2 ∧
    ((check_url_status dns0 net404 "https://a.com" []).1.redirectChain).map Hop.status
      = [404, 404] := by decide

/-- C7 witness: a 301 with no Location header yields the missing-location
comment. -/
theorem walk_missing_location_witness :
    (check_url_status dns0 net301NoLoc (urlsConst 0) []).1.comment
      = "Redirect missing location header" :=
  walk_missing_location dns0 net301NoLoc urlsConst [] 1 (by omega) (by omega)
    (fun i hi => absurd hi (by omega))
    ⟨301, [], by decide, by decide, by decide⟩

/-- C8 witness: an uncategorized exception with message "boom" is caught
and its message becomes the comment. -/
theorem walk_unexpected_error_witness :
    (check_url_status dns0 netBoom (urlsConst 0) []).1.comment = "boom" :=
  walk_unexpected_error dns0 netBoom urlsConst [] 1 "boom" (by omega) (by omega)
    (fun i hi => absurd hi (by omega)) (by decide)

/-- C8 counterexample: the comment for an uncategorized exception is the
exception's message, not the fixed text the claim states. -/
theorem walk_unexpected_comment_counterexample :
    (check_url_status dns0 netBoom "https://a.com" []).1.comment = "boom" ∧
    (check_url_status dns0 netBoom "https://a.com" []).1.comment
      ≠ "An unexpected error occurred" := by decide

/-- C5 witness: `Server: Apache` classifies as "Apache (AEM)". -/
theorem classifier_server_header_witness :
    (get_server_name_advanced dns0 [("Server", "Apache")] "https://x.com" []).1
      = "Apache (AEM)" := by
  rw [classifier_server_header dns0 [("Server", "Apache")] "https://x.com" []
    (by decide) (by decide)]
  decide

/-- C5 counterexample: for `Server: NGINX` the classifier returns "Nginx"
(the value is lowercased before capitalization), not "NGINX" as the
claim's "remaining characters kept as received" would require. -/
theorem classifier_capitalize_counterexample :
    (get_server_name_advanced dns0 [("Server", "NGINX")] "https://x.com" []).1 = "Nginx" ∧
    "Nginx" ≠ "NGINX" := by decide

/-- C9 witness: two resolvers that agree on the URL's hostname produce the
same label. -/
theorem classifier_total_deterministic_witness :
    get_server_name_advanced dnsA [] "https://x.com" []
      = get_server_name_advanced dnsB [] "https://x.com" [] :=
  classifier_total_deterministic.2 dnsA dnsB [] "https://x.com" []
    (fun s hsome => by
      have hx : pyHostname "https://x.com" = some "x.com" := by decide
      rw [hx] at hsome
      injection hsome with h
      subst h
      decide)

/-- C6 witness: an empty hostname yields absent without touching the cache
or performing a lookup. -/
theorem resolve_absent_behaviour_witness :
    resolve_ip_async dns0 (some "") [] = (none, [], false) :=
  (resolve_absent_behaviour dns0 (some "") []).1 (Or.inr rfl)

/-- C6 counterexample: a failing resolution yields absent but the absent
outcome is NOT cached — the cache stays empty — so a later resolve of the
same hostname performs the lookup again, contrary to the claim. -/
theorem resolve_absent_not_cached_counterexample :
    (resolve_ip_async dns0 (some "nosuch.example") []).1 = none ∧
    (resolve_ip_async dns0 (some "nosuch.example") []).2.1 = [] ∧
    (resolve_ip_async dns0 (some "nosuch.example")
      ((resolve_ip_async dns0 (some "nosuch.example") []).2.1)).2.2 = true := by decide

set_option maxRecDepth 10000 in
/-- C4 witness: 60 distinct URLs exceed the threshold and are throttled. -/
theorem throttle_condition_witness : should_throttle data60 = true :=
  throttle_condition.1 data60 (by decide)

set_option maxRecDepth 10000 in
/-- C4 counterexample: a message of 60 identical lines has a deduplicated
count of 1 (not more than 50), yet the throttle is enabled — the claimed
"if and only if the deduplicated count exceeds 50" is false. -/
theorem throttle_raw_count_counterexample :
    should_throttle data60dup = true ∧ ¬ (50 < (cleaned_urls data60dup).length) := by decide

/-- C10 witness: a message of blank and whitespace-only lines emits only
the done marker. -/
theorem websocket_all_blank_witness :
    websocket_messages dns0 netForNone dataBlank [] = [WsMessage.done] :=
  websocket_all_blank dns0 netForNone dataBlank [] (by decide)

end UrlJourney
